import Mathlib

/-!
A verification development for the multi-tenant client registry pattern of the
MCP server adapters.  Each adapter (ai_mcp_server, genImage, minio, postgres)
repeats the same shape: a tenant configuration value object, a lazy resolution
chain (in-memory cache, persisted Redis store, process environment variables),
on-demand client construction, per-tenant concurrency limiting via a counting
semaphore, and a shutdown path.

The Python managers are embedded shallowly: the process environment is an
association list, the external Redis store is explicit data threaded through the
manager state, client construction is recorded structurally (fresh numeric ids
and a construction log stand in for live handles), and exceptions become
Except/Option values.  Store failures (connection errors and malformed
payloads, which both raise and are both caught by the same handler in the
source) are modelled by the reachable flag and the corrupt key set of the
store.
-/

namespace MCPServers

/-- The process environment (os.environ) as an association list. -/
abbrev Env := List (String × String)

/-- os.getenv with no default. -/
def getenv (e : Env) (k : String) : Option String :=
  match e with
  | [] => none
  | (k₀, v₀) :: rest => if k₀ = k then some v₀ else getenv rest k

/-- Python truthiness of an optional env string: present and non-empty. -/
def envTruthy (e : Env) (k : String) : Option String :=
  match getenv e k with
  | some s => if s = "" then none else some s
  | none => none

/-- Python truthiness of an optional string field. -/
def optTruthy : Option String → Option String
  | some s => if s = "" then none else some s
  | none => none

/-- Association-list lookup, modelling Python dict membership and indexing. -/
def lookupA {β : Type} : List (String × β) → String → Option β
  | [], _ => none
  | (k₀, v₀) :: rest, k => if k₀ = k then some v₀ else lookupA rest k

/-- Association-list insert-or-replace, modelling Python dict assignment
(replacement keeps the original position, a new key is appended). -/
def updateA {β : Type} : List (String × β) → String → β → List (String × β)
  | [], k, v => [(k, v)]
  | (k₀, v₀) :: rest, k, v =>
    if k₀ = k then (k, v) :: rest else (k₀, v₀) :: updateA rest k v

instance {ε α : Type} [DecidableEq ε] [DecidableEq α] : DecidableEq (Except ε α) := fun x y =>
  match x, y with
  | Except.error a, Except.error b =>
    if h : a = b then Decidable.isTrue (by rw [h])
    else Decidable.isFalse (fun hc => h (by cases hc; rfl))
  | Except.error _, Except.ok _ => Decidable.isFalse (fun hc => Except.noConfusion hc)
  | Except.ok _, Except.error _ => Decidable.isFalse (fun hc => Except.noConfusion hc)
  | Except.ok a, Except.ok b =>
    if h : a = b then Decidable.isTrue (by rw [h])
    else Decidable.isFalse (fun hc => h (by cases hc; rfl))

/-- Drop leading slash characters from a reversed character list. -/
def dropSlashes : List Char → List Char
  | [] => []
  | c :: cs => if c = '/' then dropSlashes cs else c :: cs

/-- Python str.rstrip applied to the slash character. -/
def rstripSlashes (s : String) : String :=
  String.mk ((dropSlashes s.data.reverse).reverse)

/-- Python str.upper (ASCII). -/
def upperStr (s : String) : String :=
  String.mk (s.data.map Char.toUpper)

/-- Python str.lower (ASCII). -/
def lowerStr (s : String) : String :=
  String.mk (s.data.map Char.toLower)

/-- Python str.startswith. -/
def startsWithStr (s pat : String) : Bool :=
  pat.data.isPrefixOf s.data

/-- Python str.endswith. -/
def endsWithStr (s pat : String) : Bool :=
  pat.data.reverse.isPrefixOf s.data.reverse

/-- Replacement loop of str.replace, with fuel bounded by the string length
(each step consumes at least one character). -/
def replaceFuel (pat rep : List Char) : Nat → List Char → List Char
  | 0, s => s
  | _ + 1, [] => []
  | fuel + 1, c :: rest =>
    if pat.isPrefixOf (c :: rest) then
      rep ++ replaceFuel pat rep fuel (List.drop (pat.length - 1) rest)
    else c :: replaceFuel pat rep fuel rest

/-- Python str.replace for a non-empty pattern: every non-overlapping
occurrence, left to right. -/
def replaceStr (s pat rep : String) : String :=
  if pat.data = [] then s
  else String.mk (replaceFuel pat.data rep.data s.data.length s.data)

/-- One decimal digit. -/
def isDigitC (c : Char) : Bool :=
  '0' ≤ c && c ≤ '9'

/-- Accumulating decimal parse. -/
def natFold (acc : Nat) : List Char → Option Nat
  | [] => some acc
  | c :: cs => if isDigitC c then natFold (acc * 10 + (c.toNat - 48)) cs else none

/-- Python int(...) on a plain decimal literal: every character a digit, at
least one digit; anything else raises (none here). -/
def toNatDigits (s : String) : Option Nat :=
  match s.data with
  | [] => none
  | l => natFold 0 l

/-- First-occurrence deduplication, matching Python set/dict insertion
order. -/
def dedupFirst (seen : List String) : List String → List String
  | [] => []
  | a :: l => if seen.contains a then dedupFirst seen l else a :: dedupFirst (a :: seen) l

/-- int(os.getenv(k, default)): absent means the default, a malformed value
raises (Except.error). -/
def envNat (e : Env) (k : String) (d : Nat) : Except String Nat :=
  match getenv e k with
  | none => Except.ok d
  | some s =>
    match toNatDigits s with
    | some n => Except.ok n
    | none => Except.error ("invalid literal for int: " ++ s)

/-- The external Redis key-value store, with explicit failure modes: the
reachable flag covers connection establishment and every raw command, and the
corrupt list holds keys whose payload fails to deserialize (json.loads or
model validation raising in the source). -/
structure Store (γ : Type) where
  reachable : Bool
  data : List (String × γ)
  corrupt : List String
deriving Repr, DecidableEq

/-- Raw store read plus deserialization: redis get followed by json.loads and
model construction.  Every failure raises. -/
def Store.getRaw {γ : Type} (st : Store γ) (k : String) : Except String (Option γ) :=
  if st.reachable = false then Except.error "connection refused"
  else if st.corrupt.contains k then Except.error "malformed payload"
  else Except.ok (lookupA st.data k)

/-- Raw store write: redis set.  Raises when the store is unreachable. -/
def Store.setRaw {γ : Type} (st : Store γ) (k : String) (v : γ) : Except String (Store γ) :=
  if st.reachable = false then Except.error "connection refused"
  else Except.ok { st with data := updateA st.data k v }

/-- Raw store key scan for the glob pattern pfx followed by a wildcard. -/
def Store.keysRaw {γ : Type} (st : Store γ) (pfx : String) : Except String (List String) :=
  if st.reachable = false then Except.error "connection refused"
  else Except.ok ((st.data.map Prod.fst).filter (fun k => startsWithStr k pfx))

namespace AI

/-- AITenantConfig (ai_mcp_server/tenant_manager.py), with the pydantic field
defaults of the source. -/
structure AITenantConfig where
  tenant_id : String
  api_base_url : String := "http://192.168.0.10:8000"
  api_key : Option String := none
  openrouter_api_key : Option String := none
  elevenlabs_api_key : Option String := none
  openai_api_key : Option String := none
  timeout : Nat := 300
  max_concurrent_requests : Nat := 10
deriving Repr, DecidableEq

/-- A provider client (providers.py): construction is recorded structurally
with a fresh numeric id standing in for the live handle. -/
structure ProviderClient where
  role : String
  apiKey : String
  timeout : Nat
  pid : Nat
deriving Repr, DecidableEq

/-- AIClientWrapper (client.py __init__): strips trailing slashes from the base
URL and owns a counting semaphore whose capacity is recorded here. -/
structure AIClientWrapper where
  apiBaseUrl : String
  apiKey : Option String
  timeout : Nat
  semCapacity : Nat
  cid : Nat
deriving Repr, DecidableEq

/-- The per-tenant dict stored in self.clients: client, providers, config and
the semaphore (which is the wrapper semaphore, so its capacity is repeated). -/
structure AIClientInfo where
  client : AIClientWrapper
  providers : List ProviderClient
  config : AITenantConfig
  semCapacity : Nat
deriving Repr, DecidableEq

/-- The AITenantManager state: the two in-memory maps, the Redis connection
flags, the external store threaded through, a fresh-id counter, a log of
client constructions by tenant id, and a log of released resource ids. -/
structure AIState where
  clients : List (String × AIClientInfo)
  configs : List (String × AITenantConfig)
  redisConn : Bool
  redisInit : Bool
  store : Store AITenantConfig
  nextId : Nat
  constructions : List String
  closed : List Nat
deriving Repr, DecidableEq

/-- The manager as built by __init__, over a given external store. -/
def initState (st : Store AITenantConfig) : AIState :=
  { clients := [], configs := [], redisConn := false, redisInit := false,
    store := st, nextId := 0, constructions := [], closed := [] }

/-- self.redis_key_prefix. -/
def redisKeyPfx : String := "mcp:ai-mcp-server:tenant:"

/-- _init_redis: a no-op once initialized; otherwise attempts the connection
and ping, degrading to no client on failure while still marking itself
initialized. -/
def initRedis (s : AIState) : AIState :=
  if s.redisInit then s
  else if s.store.reachable then { s with redisConn := true, redisInit := true }
  else { s with redisConn := false, redisInit := true }

/-- _load_from_redis: initializes Redis, returns none without a client, and
catches every raw-read failure, degrading it to none. -/
def loadFromRedis (s : AIState) (tid : String) : AIState × Option AITenantConfig :=
  let s₁ := initRedis s
  if s₁.redisConn = false then (s₁, none)
  else
    match s₁.store.getRaw (redisKeyPfx ++ tid) with
    | Except.error _ => (s₁, none)
    | Except.ok v => (s₁, v)

/-- _save_to_redis: initializes Redis, skips without a client, and catches
every raw-write failure. -/
def saveToRedis (s : AIState) (cfg : AITenantConfig) : AIState :=
  let s₁ := initRedis s
  if s₁.redisConn = false then s₁
  else
    match s₁.store.setRaw (redisKeyPfx ++ cfg.tenant_id) cfg with
    | Except.error _ => s₁
    | Except.ok st => { s₁ with store := st }

/-- _load_all_from_redis: scans keys under the prefix and loads each, catching
scan failures (yielding the empty collection). -/
def loadAllFromRedis (s : AIState) : AIState × List (String × AITenantConfig) :=
  let s₁ := initRedis s
  if s₁.redisConn = false then (s₁, [])
  else
    match s₁.store.keysRaw redisKeyPfx with
    | Except.error _ => (s₁, [])
    | Except.ok ks =>
      ks.foldl
        (fun acc k =>
          let tid := replaceStr k redisKeyPfx ""
          match loadFromRedis acc.1 tid with
          | (s₂, some cfg) => (s₂, updateA acc.2 tid cfg)
          | (s₂, none) => (s₂, acc.2))
        (s₁, [])

/-- load_tenant_from_env of the AI manager: the base URL falls back to the
default GPU-AI API when the tenant variable is absent or empty, so this source
always yields a config (or raises on a malformed integer variable). -/
def loadTenantFromEnv (env : Env) (tid : String) : Except String (Option AITenantConfig) := do
  let p := "AI_MCP_SERVER_TENANT_" ++ upperStr tid
  let base :=
    match envTruthy env (p ++ "_API_BASE_URL") with
    | some u => u
    | none => (getenv env "AI_MCP_SERVER_DEFAULT_API_BASE_URL").getD "http://192.168.0.10:8000"
  let tmo ← envNat env (p ++ "_TIMEOUT") 300
  let mcr ← envNat env (p ++ "_MAX_CONCURRENT") 10
  pure (some
    { tenant_id := tid,
      api_base_url := base,
      api_key := getenv env (p ++ "_API_KEY"),
      openrouter_api_key := getenv env (p ++ "_OPENROUTER_API_KEY"),
      elevenlabs_api_key := getenv env (p ++ "_ELEVENLABS_API_KEY"),
      openai_api_key := getenv env (p ++ "_OPENAI_API_KEY"),
      timeout := tmo,
      max_concurrent_requests := mcr })

/-- Provider client construction in register_tenant: skipped for the global
tenant, and one client per truthy provider key, in source order. -/
def mkProviders (cfg : AITenantConfig) (baseId : Nat) : List ProviderClient × Nat :=
  if cfg.tenant_id = "global" then ([], baseId)
  else
    let (l₁, n₁) :=
      match optTruthy cfg.openrouter_api_key with
      | some k =>
        ([({ role := "openrouter", apiKey := k, timeout := cfg.timeout, pid := baseId } : ProviderClient)],
          baseId + 1)
      | none => ([], baseId)
    let (l₂, n₂) :=
      match optTruthy cfg.elevenlabs_api_key with
      | some k =>
        (l₁ ++ [({ role := "elevenlabs", apiKey := k, timeout := cfg.timeout, pid := n₁ } : ProviderClient)], n₁ + 1)
      | none => (l₁, n₁)
    match optTruthy cfg.openai_api_key with
    | some k =>
      (l₂ ++ [({ role := "openai", apiKey := k, timeout := cfg.timeout, pid := n₂ } : ProviderClient)], n₂ + 1)
    | none => (l₂, n₂)

/-- register_tenant: builds the wrapper (semaphore sized from the config) and
provider clients, replaces the in-memory entries, and persists the config. -/
def registerTenant (s : AIState) (cfg : AITenantConfig) : AIState :=
  let wrapper : AIClientWrapper :=
    { apiBaseUrl := rstripSlashes cfg.api_base_url,
      apiKey := cfg.api_key,
      timeout := cfg.timeout,
      semCapacity := cfg.max_concurrent_requests,
      cid := s.nextId }
  let pn := mkProviders cfg (s.nextId + 1)
  let info : AIClientInfo :=
    { client := wrapper, providers := pn.1, config := cfg, semCapacity := wrapper.semCapacity }
  let s₁ :=
    { s with
      clients := updateA s.clients cfg.tenant_id info,
      configs := updateA s.configs cfg.tenant_id cfg,
      nextId := pn.2,
      constructions := s.constructions ++ [cfg.tenant_id] }
  saveToRedis s₁ cfg

/-- The uncached branch of get_client: the source chain (store then
environment), registration on success, and the not-found error otherwise. -/
def resolveAndRegister (env : Env) (s : AIState) (tid : String) :
    AIState × Except String AIClientInfo :=
  let r := loadFromRedis s tid
  let cfgE : Except String (Option AITenantConfig) :=
    match r.2 with
    | some c => Except.ok (some c)
    | none => loadTenantFromEnv env tid
  match cfgE with
  | Except.error e => (r.1, Except.error e)
  | Except.ok none =>
    (r.1, Except.error ("Tenant \x27" ++ tid ++
      "\x27 not found. Configure it via environment variables or register it programmatically."))
  | Except.ok (some cfg) =>
    let s₂ := registerTenant r.1 cfg
    match lookupA s₂.clients tid with
    | some info => (s₂, Except.ok info)
    | none => (s₂, Except.error "KeyError")

/-- get_client: the cached entry when present, otherwise the resolution
chain. -/
def getClient (env : Env) (s : AIState) (tid : String) : AIState × Except String AIClientInfo :=
  match lookupA s.clients tid with
  | some info => (s, Except.ok info)
  | none => resolveAndRegister env s tid

/-- The tenant ids scanned from the environment in initialize: keys with the
adapter prefix and the required-field suffix, lowercased, deduplicated. -/
def envTenantIds (pfx sfx : String) (env : Env) : List String :=
  dedupFirst []
    (((env.map Prod.fst).filter (fun k => startsWithStr k pfx && endsWithStr k sfx)).map
      (fun k => lowerStr (replaceStr (replaceStr k pfx "") sfx "")))

/-- initialize: registers every persisted config, then scans the environment
and registers only tenant ids not already present in self.configs.  An
exception from the environment loader aborts the remaining iterations. -/
def initAll (env : Env) (s : AIState) : AIState × Option String :=
  let r := loadAllFromRedis s
  let s₂ := r.2.foldl (fun st kc => registerTenant st kc.2) r.1
  let tids := envTenantIds "AI_MCP_SERVER_TENANT_" "_API_BASE_URL" env
  tids.foldl
    (fun acc tid =>
      match acc.2 with
      | some _ => acc
      | none =>
        if (lookupA acc.1.configs tid).isSome then acc
        else
          match loadTenantFromEnv env tid with
          | Except.error e => (acc.1, some e)
          | Except.ok (some cfg) => (registerTenant acc.1 cfg, none)
          | Except.ok none => acc)
    (s₂, none)

/-- Closing the provider clients of one entry, in order; cf tells which close
calls raise.  A raised close aborts immediately, keeping the state reached. -/
def closeProviders (cf : Nat → Bool) (s : AIState) : List ProviderClient → AIState × Option String
  | [] => (s, none)
  | p :: rest =>
    if cf p.pid then (s, some "close failed")
    else closeProviders cf { s with closed := s.closed ++ [p.pid] } rest

/-- The close loop of close_all over the entries: the wrapper first, then the
provider clients, with no exception handling in the source. -/
def closeClients (cf : Nat → Bool) (s : AIState) : List (String × AIClientInfo) → AIState × Option String
  | [] => (s, none)
  | (_, info) :: rest =>
    if cf info.client.cid then (s, some "close failed")
    else
      let s₁ := { s with closed := s.closed ++ [info.client.cid] }
      match closeProviders cf s₁ info.providers with
      | (s₂, some e) => (s₂, some e)
      | (s₂, none) => closeClients cf s₂ rest

/-- close_all: closes every client and provider, clears both maps, and
releases the Redis connection (resetting the initialized flag) only when a
live Redis client exists.  A close failure propagates and skips the rest. -/
def closeAll (cf : Nat → Bool) (s : AIState) : AIState × Option String :=
  match closeClients cf s s.clients with
  | (s₁, some e) => (s₁, some e)
  | (s₁, none) =>
    let s₂ := { s₁ with clients := [], configs := [] }
    if s₂.redisConn then ({ s₂ with redisConn := false, redisInit := false }, none)
    else (s₂, none)

end AI

namespace GenImage

/-- GenImageTenantConfig (genImage/tenant_manager.py): the Runware API key is
a required field. -/
structure GenImageTenantConfig where
  tenant_id : String
  runware_api_key : String
  base_url : String := "https://api.runware.ai/v1"
  max_concurrent_requests : Nat := 10
deriving Repr, DecidableEq

/-- GenImageClientWrapper (genImage/client.py __init__): strips trailing
slashes from the base URL and owns the semaphore passed by registration. -/
structure GClientWrapper where
  apiKey : String
  semCapacity : Nat
  baseUrl : String
  cid : Nat
deriving Repr, DecidableEq

/-- The per-tenant dict stored in self.clients. -/
structure GClientInfo where
  client : GClientWrapper
  config : GenImageTenantConfig
  semCapacity : Nat
deriving Repr, DecidableEq

/-- The GenImageTenantManager state, mirroring the AI manager state. -/
structure GState where
  clients : List (String × GClientInfo)
  configs : List (String × GenImageTenantConfig)
  redisConn : Bool
  redisInit : Bool
  store : Store GenImageTenantConfig
  nextId : Nat
  constructions : List String
  closed : List Nat
deriving Repr, DecidableEq

/-- The manager as built by __init__, over a given external store. -/
def initStateG (st : Store GenImageTenantConfig) : GState :=
  { clients := [], configs := [], redisConn := false, redisInit := false,
    store := st, nextId := 0, constructions := [], closed := [] }

/-- self.redis_key_prefix. -/
def redisKeyPfxG : String := "mcp:genImage:tenant:"

/-- _init_redis of the GenImage manager. -/
def initRedisG (s : GState) : GState :=
  if s.redisInit then s
  else if s.store.reachable then { s with redisConn := true, redisInit := true }
  else { s with redisConn := false, redisInit := true }

/-- _load_from_redis of the GenImage manager. -/
def loadFromRedisG (s : GState) (tid : String) : GState × Option GenImageTenantConfig :=
  let s₁ := initRedisG s
  if s₁.redisConn = false then (s₁, none)
  else
    match s₁.store.getRaw (redisKeyPfxG ++ tid) with
    | Except.error _ => (s₁, none)
    | Except.ok v => (s₁, v)

/-- _save_to_redis of the GenImage manager. -/
def saveToRedisG (s : GState) (cfg : GenImageTenantConfig) : GState :=
  let s₁ := initRedisG s
  if s₁.redisConn = false then s₁
  else
    match s₁.store.setRaw (redisKeyPfxG ++ cfg.tenant_id) cfg with
    | Except.error _ => s₁
    | Except.ok st => { s₁ with store := st }

/-- _load_all_from_redis of the GenImage manager. -/
def loadAllFromRedisG (s : GState) : GState × List (String × GenImageTenantConfig) :=
  let s₁ := initRedisG s
  if s₁.redisConn = false then (s₁, [])
  else
    match s₁.store.keysRaw redisKeyPfxG with
    | Except.error _ => (s₁, [])
    | Except.ok ks =>
      ks.foldl
        (fun acc k =>
          let tid := replaceStr k redisKeyPfxG ""
          match loadFromRedisG acc.1 tid with
          | (s₂, some cfg) => (s₂, updateA acc.2 tid cfg)
          | (s₂, none) => (s₂, acc.2))
        (s₁, [])

/-- load_tenant_from_env of the GenImage manager: yields nothing when the
required Runware API key variable is absent or empty. -/
def loadTenantFromEnvG (env : Env) (tid : String) : Except String (Option GenImageTenantConfig) := do
  let p := "GENIMAGE_TENANT_" ++ upperStr tid
  match envTruthy env (p ++ "_RUNWARE_API_KEY") with
  | none => pure none
  | some key => do
    let mcr ← envNat env (p ++ "_MAX_CONCURRENT") 10
    pure (some
      { tenant_id := tid,
        runware_api_key := key,
        base_url := (getenv env (p ++ "_BASE_URL")).getD "https://api.runware.ai/v1",
        max_concurrent_requests := mcr })

/-- register_tenant of the GenImage manager. -/
def registerTenantG (s : GState) (cfg : GenImageTenantConfig) : GState :=
  let wrapper : GClientWrapper :=
    { apiKey := cfg.runware_api_key,
      semCapacity := cfg.max_concurrent_requests,
      baseUrl := rstripSlashes cfg.base_url,
      cid := s.nextId }
  let info : GClientInfo :=
    { client := wrapper, config := cfg, semCapacity := wrapper.semCapacity }
  let s₁ :=
    { s with
      clients := updateA s.clients cfg.tenant_id info,
      configs := updateA s.configs cfg.tenant_id cfg,
      nextId := s.nextId + 1,
      constructions := s.constructions ++ [cfg.tenant_id] }
  saveToRedisG s₁ cfg

/-- The uncached branch of get_client of the GenImage manager. -/
def resolveAndRegisterG (env : Env) (s : GState) (tid : String) :
    GState × Except String GClientInfo :=
  let r := loadFromRedisG s tid
  let cfgE : Except String (Option GenImageTenantConfig) :=
    match r.2 with
    | some c => Except.ok (some c)
    | none => loadTenantFromEnvG env tid
  match cfgE with
  | Except.error e => (r.1, Except.error e)
  | Except.ok none =>
    (r.1, Except.error ("Tenant \x27" ++ tid ++
      "\x27 not found. Configure it via environment variables or register it programmatically."))
  | Except.ok (some cfg) =>
    let s₂ := registerTenantG r.1 cfg
    match lookupA s₂.clients tid with
    | some info => (s₂, Except.ok info)
    | none => (s₂, Except.error "KeyError")

/-- get_client of the GenImage manager. -/
def getClientG (env : Env) (s : GState) (tid : String) : GState × Except String GClientInfo :=
  match lookupA s.clients tid with
  | some info => (s, Except.ok info)
  | none => resolveAndRegisterG env s tid

/-- initialize of the GenImage manager: persisted pass first, then the
environment pass restricted to tenant ids not already in self.configs. -/
def initAllG (env : Env) (s : GState) : GState × Option String :=
  let r := loadAllFromRedisG s
  let s₂ := r.2.foldl (fun st kc => registerTenantG st kc.2) r.1
  let tids := AI.envTenantIds "GENIMAGE_TENANT_" "_RUNWARE_API_KEY" env
  tids.foldl
    (fun acc tid =>
      match acc.2 with
      | some _ => acc
      | none =>
        if (lookupA acc.1.configs tid).isSome then acc
        else
          match loadTenantFromEnvG env tid with
          | Except.error e => (acc.1, some e)
          | Except.ok (some cfg) => (registerTenantG acc.1 cfg, none)
          | Except.ok none => acc)
    (s₂, none)

/-- The close loop of close_all of the GenImage manager (wrapper only, no
providers), with no exception handling in the source. -/
def closeClientsG (cf : Nat → Bool) (s : GState) : List (String × GClientInfo) → GState × Option String
  | [] => (s, none)
  | (_, info) :: rest =>
    if cf info.client.cid then (s, some "close failed")
    else closeClientsG cf { s with closed := s.closed ++ [info.client.cid] } rest

/-- close_all of the GenImage manager. -/
def closeAllG (cf : Nat → Bool) (s : GState) : GState × Option String :=
  match closeClientsG cf s s.clients with
  | (s₁, some e) => (s₁, some e)
  | (s₁, none) =>
    let s₂ := { s₁ with clients := [], configs := [] }
    if s₂.redisConn then ({ s₂ with redisConn := false, redisInit := false }, none)
    else (s₂, none)

end GenImage

namespace Minio

/-- MinioTenantConfig (minio/tenant_manager.py). -/
structure MinioTenantConfig where
  tenant_id : String
  endpoint : String
  access_key : String
  secret_key : String
  secure : Bool := true
  region : Option String := none
deriving Repr, DecidableEq

/-- A constructed Minio client, recorded structurally. -/
structure MinioClient where
  endpoint : String
  accessKey : String
  secretKey : String
  secure : Bool
  region : Option String
  cid : Nat
deriving Repr, DecidableEq

/-- The MinioTenantManager state: no persistent store in this adapter. -/
structure MinioState where
  clients : List (String × MinioClient)
  configs : List (String × MinioTenantConfig)
  nextId : Nat
  constructions : List String
deriving Repr, DecidableEq

/-- The manager as built by __init__. -/
def initStateM : MinioState :=
  { clients := [], configs := [], nextId := 0, constructions := [] }

/-- load_tenant_from_env of the Minio manager: yields nothing when the
required endpoint variable is absent or empty. -/
def loadTenantFromEnvM (env : Env) (tid : String) : Option MinioTenantConfig :=
  let p := "MINIO_TENANT_" ++ upperStr tid
  match envTruthy env (p ++ "_ENDPOINT") with
  | none => none
  | some ep =>
    some
      { tenant_id := tid,
        endpoint := ep,
        access_key := (getenv env (p ++ "_ACCESS_KEY")).getD "",
        secret_key := (getenv env (p ++ "_SECRET_KEY")).getD "",
        secure := lowerStr ((getenv env (p ++ "_SECURE")).getD "true") = "true",
        region := getenv env (p ++ "_REGION") }

/-- register_tenant of the Minio manager. -/
def registerTenantM (s : MinioState) (cfg : MinioTenantConfig) : MinioState :=
  let client : MinioClient :=
    { endpoint := cfg.endpoint, accessKey := cfg.access_key, secretKey := cfg.secret_key,
      secure := cfg.secure, region := cfg.region, cid := s.nextId }
  { s with
    clients := updateA s.clients cfg.tenant_id client,
    configs := updateA s.configs cfg.tenant_id cfg,
    nextId := s.nextId + 1,
    constructions := s.constructions ++ [cfg.tenant_id] }

/-- get_client of the Minio manager: cache, then environment, else the
not-found error. -/
def getClientM (env : Env) (s : MinioState) (tid : String) : MinioState × Except String MinioClient :=
  match lookupA s.clients tid with
  | some c => (s, Except.ok c)
  | none =>
    match loadTenantFromEnvM env tid with
    | some cfg =>
      let s₁ := registerTenantM s cfg
      match lookupA s₁.clients tid with
      | some c => (s₁, Except.ok c)
      | none => (s₁, Except.error "KeyError")
    | none =>
      (s, Except.error ("Tenant \x27" ++ tid ++
        "\x27 not found. Configure it via environment variables."))

end Minio

namespace PG

/-- PostgresTenantConfig (postgres/tenant_manager.py). -/
structure PostgresTenantConfig where
  tenant_id : String
  host : String
  port : Nat := 5432
  database : String
  user : String
  password : String
  min_pool_size : Nat := 2
  max_pool_size : Nat := 10
  ssl : Bool := false
deriving Repr, DecidableEq

/-- get_connection_string. -/
def connectionString (c : PostgresTenantConfig) : String :=
  let sslMode := if c.ssl then "require" else "disable"
  "postgresql://" ++ c.user ++ ":" ++ c.password ++ "@" ++ c.host ++ ":" ++
    toString c.port ++ "/" ++ c.database ++ "?sslmode=" ++ sslMode

/-- The PostgresTenantManager state: pools are recorded by numeric id, with a
log of closed pool ids standing in for released resources. -/
structure PGState where
  pools : List (String × Nat)
  configs : List (String × PostgresTenantConfig)
  nextPool : Nat
  closedPools : List Nat
deriving Repr, DecidableEq

/-- load_tenant_from_env of the Postgres manager: yields nothing when the
required host variable is absent or empty. -/
def loadTenantFromEnvP (env : Env) (tid : String) : Except String (Option PostgresTenantConfig) := do
  let p := "POSTGRES_TENANT_" ++ upperStr tid
  match envTruthy env (p ++ "_HOST") with
  | none => pure none
  | some host => do
    let port ← envNat env (p ++ "_PORT") 5432
    let minP ← envNat env (p ++ "_MIN_POOL_SIZE") 2
    let maxP ← envNat env (p ++ "_MAX_POOL_SIZE") 10
    pure (some
      { tenant_id := tid,
        host := host,
        port := port,
        database := (getenv env (p ++ "_DB")).getD ((getenv env (p ++ "_DATABASE")).getD ""),
        user := (getenv env (p ++ "_USER")).getD "postgres",
        password := (getenv env (p ++ "_PASSWORD")).getD "",
        min_pool_size := minP,
        max_pool_size := maxP,
        ssl := lowerStr ((getenv env (p ++ "_SSL")).getD "false") = "true" })

/-- register_tenant of the Postgres manager: closes any existing pool for the
tenant first, then constructs and opens the new pool (open may raise, given by
the openFails oracle on the connection string), and only on success replaces
the map entries. -/
def registerTenantP (openFails : String → Bool) (s : PGState) (cfg : PostgresTenantConfig) :
    PGState × Option String :=
  let s₁ :=
    match lookupA s.pools cfg.tenant_id with
    | some pid => { s with closedPools := s.closedPools ++ [pid] }
    | none => s
  let pid := s₁.nextPool
  if openFails (connectionString cfg) then ({ s₁ with nextPool := pid + 1 }, some "pool open failed")
  else
    ({ s₁ with
        pools := updateA s₁.pools cfg.tenant_id pid,
        configs := updateA s₁.configs cfg.tenant_id cfg,
        nextPool := pid + 1 }, none)

end PG

namespace Gate

/-- One observable event of a tool operation on the per-tenant concurrency
gate: acquiring the semaphore, issuing the outbound call (with its success
flag), and releasing the semaphore. -/
inductive GateEvent where
  | acquire (op : Nat)
  | call (op : Nat) (ok : Bool)
  | release (op : Nat)
deriving Repr, DecidableEq

/-- The event sequence of one client operation: the body of every operation is
wrapped in async-with over the tenant semaphore, with a try/except body that
returns an error envelope, so the release happens on the success path and on
the failure path alike. -/
def opTrace (i : Nat) (ok : Bool) : List GateEvent :=
  [GateEvent.acquire i, GateEvent.call i ok, GateEvent.release i]

/-- Effect of one event on the number of holders of the gate. -/
def holdersStep : Nat → GateEvent → Nat
  | h, GateEvent.acquire _ => h + 1
  | h, GateEvent.call _ _ => h
  | h, GateEvent.release _ => h - 1

/-- Holders of the gate after a sequence of events, starting from h. -/
def holdersAfter (h : Nat) (tr : List GateEvent) : Nat :=
  tr.foldl holdersStep h

/-- Admission of the counting semaphore of capacity cap: an acquire step is
only scheduled when a permit is free (the acquiring task suspends
otherwise). -/
def gateValid (cap : Nat) : Nat → List GateEvent → Prop
  | _, [] => True
  | h, GateEvent.acquire _ :: tr => h < cap ∧ gateValid cap (h + 1) tr
  | h, GateEvent.call _ _ :: tr => gateValid cap h tr
  | h, GateEvent.release _ :: tr => gateValid cap (h - 1) tr

end Gate

/-- The resource ids of the provider clients of one entry, in close order. -/
def provIds (l : List AI.ProviderClient) : List Nat :=
  l.map AI.ProviderClient.pid

/-- The resource ids of one registry entry: the wrapper client first, then the
provider clients, in the order close_all releases them. -/
def entryIds (info : AI.AIClientInfo) : List Nat :=
  info.client.cid :: provIds info.providers

/-- The resource ids of all registry entries, in close_all iteration order. -/
def entriesIds (l : List (String × AI.AIClientInfo)) : List Nat :=
  l.foldr (fun kv acc => entryIds kv.2 ++ acc) []

/- Concrete inputs for C1: a tenant with both a persisted config and an
environment-derived config. -/

def c1Cfg : AI.AITenantConfig :=
  { tenant_id := "acme", api_base_url := "http://persisted.example" }

def c1Store : Store AI.AITenantConfig :=
  { reachable := true, data := [("mcp:ai-mcp-server:tenant:acme", c1Cfg)], corrupt := [] }

def c1Env : Env := [("AI_MCP_SERVER_TENANT_ACME_API_BASE_URL", "http://env.example")]

/- Concrete inputs for C2. -/

def c2Store : Store AI.AITenantConfig := { reachable := false, data := [], corrupt := [] }

def c2Cfg : AI.AITenantConfig := { tenant_id := "t1" }

def c2Info : AI.AIClientInfo :=
  { client := { apiBaseUrl := "http://192.168.0.10:8000", apiKey := none, timeout := 300,
                semCapacity := 10, cid := 0 },
    providers := [], config := c2Cfg, semCapacity := 10 }

def c2S1 : AI.AIState :=
  { clients := [("t1", c2Info)], configs := [("t1", c2Cfg)], redisConn := false,
    redisInit := true, store := c2Store, nextId := 1, constructions := ["t1"], closed := [] }

/- Concrete inputs for C3. -/

def c3Store : Store AI.AITenantConfig := { reachable := false, data := [], corrupt := [] }

def c3Cfg : AI.AITenantConfig := { tenant_id := "nonexistent" }

def c3Info : AI.AIClientInfo :=
  { client := { apiBaseUrl := "http://192.168.0.10:8000", apiKey := none, timeout := 300,
                semCapacity := 10, cid := 0 },
    providers := [], config := c3Cfg, semCapacity := 10 }

def c3GStore : Store GenImage.GenImageTenantConfig := { reachable := false, data := [], corrupt := [] }

/- Concrete inputs for C5: a registered tenant whose re-registration fails at
pool open. -/

def c5Cfg : PG.PostgresTenantConfig :=
  { tenant_id := "t", host := "db", database := "d", user := "u", password := "p" }

def c5S : PG.PGState :=
  { pools := [("t", 0)], configs := [("t", c5Cfg)], nextPool := 1, closedPools := [] }

def c5S1 : PG.PGState :=
  { pools := [("t", 0)], configs := [("t", c5Cfg)], nextPool := 2, closedPools := [0] }

/- Concrete inputs for C6: two registered tenants, the close of the first
raising. -/

def c6Cfg1 : AI.AITenantConfig := { tenant_id := "a" }

def c6Cfg2 : AI.AITenantConfig := { tenant_id := "b" }

def c6Info1 : AI.AIClientInfo :=
  { client := { apiBaseUrl := "u1", apiKey := none, timeout := 300, semCapacity := 10, cid := 0 },
    providers := [], config := c6Cfg1, semCapacity := 10 }

def c6Info2 : AI.AIClientInfo :=
  { client := { apiBaseUrl := "u2", apiKey := none, timeout := 300, semCapacity := 10, cid := 1 },
    providers := [], config := c6Cfg2, semCapacity := 10 }

def c6S : AI.AIState :=
  { clients := [("a", c6Info1), ("b", c6Info2)], configs := [("a", c6Cfg1), ("b", c6Cfg2)],
    redisConn := true, redisInit := true, store := { reachable := true, data := [], corrupt := [] },
    nextId := 2, constructions := ["a", "b"], closed := [] }

/- Concrete inputs for C7: a GenImage manager with one active tenant. -/

def c7Cfg : GenImage.GenImageTenantConfig := { tenant_id := "g1", runware_api_key := "k1" }

def c7Info : GenImage.GClientInfo :=
  { client := { apiKey := "k1", semCapacity := 10, baseUrl := "https://api.runware.ai/v1", cid := 0 },
    config := c7Cfg, semCapacity := 10 }

def c7S : GenImage.GState :=
  { clients := [("g1", c7Info)], configs := [("g1", c7Cfg)], redisConn := false,
    redisInit := true, store := { reachable := false, data := [], corrupt := [] },
    nextId := 1, constructions := ["g1"], closed := [] }

def c7S1 : GenImage.GState :=
  { clients := [], configs := [], redisConn := false,
    redisInit := true, store := { reachable := false, data := [], corrupt := [] },
    nextId := 1, constructions := ["g1"], closed := [0] }

/- Concrete inputs for C8: an unreachable store and an environment-derived
config. -/

def c8Store : Store AI.AITenantConfig := { reachable := false, data := [("x", c2Cfg)], corrupt := [] }

def c8S : AI.AIState := AI.initState c8Store

def c8Env : Env := [("AI_MCP_SERVER_TENANT_T8_API_BASE_URL", "http://t8.example")]

def c8Cfg : AI.AITenantConfig := { tenant_id := "t8", api_base_url := "http://t8.example" }

def c8BadCfg : AI.AITenantConfig := { tenant_id := "t8", api_base_url := "http://malformed.example" }

def c8CorruptStore : Store AI.AITenantConfig :=
  { reachable := true, data := [("mcp:ai-mcp-server:tenant:t8", c8BadCfg)],
    corrupt := ["mcp:ai-mcp-server:tenant:t8"] }

def c8CorruptS : AI.AIState := AI.initState c8CorruptStore

/- Concrete inputs for C9. -/

def c9Store : Store AI.AITenantConfig := { reachable := false, data := [], corrupt := [] }

def c9S : AI.AIState := AI.initState c9Store

def c9Cfg : AI.AITenantConfig := { tenant_id := "t9", max_concurrent_requests := 7 }

def c9Info : AI.AIClientInfo :=
  { client := { apiBaseUrl := "http://192.168.0.10:8000", apiKey := none, timeout := 300,
                semCapacity := 7, cid := 0 },
    providers := [], config := c9Cfg, semCapacity := 7 }

def c9MCfg : Minio.MinioTenantConfig :=
  { tenant_id := "m1", endpoint := "e:9000", access_key := "a", secret_key := "s" }

def c9MClient : Minio.MinioClient :=
  { endpoint := "e:9000", accessKey := "a", secretKey := "s", secure := true,
    region := none, cid := 0 }

/- Concrete inputs for C10: a manager in the degraded-store state whose
external store has become reachable again. -/

def c10S : AI.AIState :=
  { clients := [], configs := [], redisConn := false, redisInit := true,
    store := { reachable := true, data := [], corrupt := [] }, nextId := 0,
    constructions := [], closed := [] }

def c10Cfg : AI.AITenantConfig := { tenant_id := "t10" }

/-! Helper lemmas about the embedding. -/

theorem lookupA_updateA_self {β : Type} (l : List (String × β)) (k : String) (v : β) :
    lookupA (updateA l k v) k = some v := by
  induction l with
  | nil => simp [updateA, lookupA]
  | cons hd tl ih =>
    by_cases hk : hd.1 = k
    · simp [updateA, hk, lookupA]
    · simp [updateA, hk, lookupA, ih]

theorem ai_env_loader_tenant_id (env : Env) (tid : String) (cfg : AI.AITenantConfig)
    (h : AI.loadTenantFromEnv env tid = Except.ok (some cfg)) : cfg.tenant_id = tid := by
  unfold AI.loadTenantFromEnv at h
  cases h₁ : envNat env ("AI_MCP_SERVER_TENANT_" ++ upperStr tid ++ "_TIMEOUT") 300 with
  | error e => simp [h₁, bind, Except.bind] at h
  | ok tmo =>
    cases h₂ : envNat env ("AI_MCP_SERVER_TENANT_" ++ upperStr tid ++ "_MAX_CONCURRENT") 10 with
    | error e => simp [h₁, h₂, bind, Except.bind] at h
    | ok mcr =>
      simp only [h₁, h₂, bind, Except.bind, pure, Except.pure] at h
      cases h
      rfl

theorem ai_env_loader_never_none (env : Env) (tid : String) :
    AI.loadTenantFromEnv env tid ≠ Except.ok none := by
  unfold AI.loadTenantFromEnv
  cases h₁ : envNat env ("AI_MCP_SERVER_TENANT_" ++ upperStr tid ++ "_TIMEOUT") 300 with
  | error e => simp [h₁, bind, Except.bind]
  | ok tmo =>
    cases h₂ : envNat env ("AI_MCP_SERVER_TENANT_" ++ upperStr tid ++ "_MAX_CONCURRENT") 10 with
    | error e => simp [h₁, h₂, bind, Except.bind]
    | ok mcr => simp [h₁, h₂, bind, Except.bind, pure, Except.pure]

theorem ai_saveToRedis_clients (s : AI.AIState) (cfg : AI.AITenantConfig) :
    (AI.saveToRedis s cfg).clients = s.clients ∧
    (AI.saveToRedis s cfg).configs = s.configs ∧
    (AI.saveToRedis s cfg).constructions = s.constructions := by
  rcases s with ⟨cl, cfs, rc, ri, ⟨re, da, co⟩, ni, cs, cd⟩
  cases ri <;> cases rc <;> cases re <;>
    simp [AI.saveToRedis, AI.initRedis, Store.setRaw]

theorem ai_register_entry (s : AI.AIState) (cfg : AI.AITenantConfig) :
    ∃ info : AI.AIClientInfo,
      lookupA (AI.registerTenant s cfg).clients cfg.tenant_id = some info ∧
      info.config = cfg ∧
      info.semCapacity = cfg.max_concurrent_requests ∧
      info.client.semCapacity = cfg.max_concurrent_requests := by
  have h : lookupA (AI.registerTenant s cfg).clients cfg.tenant_id =
      some
        { client :=
            { apiBaseUrl := rstripSlashes cfg.api_base_url
              apiKey := cfg.api_key
              timeout := cfg.timeout
              semCapacity := cfg.max_concurrent_requests
              cid := s.nextId }
          providers := (AI.mkProviders cfg (s.nextId + 1)).1
          config := cfg
          semCapacity := cfg.max_concurrent_requests } := by
    unfold AI.registerTenant
    rw [(ai_saveToRedis_clients _ _).1]
    exact lookupA_updateA_self _ _ _
  exact ⟨_, h, rfl, rfl, rfl⟩

theorem ai_closeProviders_fields (cf : Nat → Bool) (l : List AI.ProviderClient) (s : AI.AIState) :
    (AI.closeProviders cf s l).1.clients = s.clients ∧
    (AI.closeProviders cf s l).1.configs = s.configs ∧
    (AI.closeProviders cf s l).1.redisConn = s.redisConn ∧
    (AI.closeProviders cf s l).1.redisInit = s.redisInit ∧
    (AI.closeProviders cf s l).1.store = s.store := by
  induction l generalizing s with
  | nil => simp [AI.closeProviders]
  | cons p rest ih =>
    cases hp : cf p.pid <;> simp [AI.closeProviders, hp]
    exact ih _

theorem ai_closeClients_fields (cf : Nat → Bool) (l : List (String × AI.AIClientInfo)) (s : AI.AIState) :
    (AI.closeClients cf s l).1.clients = s.clients ∧
    (AI.closeClients cf s l).1.configs = s.configs ∧
    (AI.closeClients cf s l).1.redisConn = s.redisConn ∧
    (AI.closeClients cf s l).1.redisInit = s.redisInit ∧
    (AI.closeClients cf s l).1.store = s.store := by
  induction l generalizing s with
  | nil => simp [AI.closeClients]
  | cons kv rest ih =>
    cases hp : cf kv.2.client.cid with
    | true => simp [AI.closeClients, hp]
    | false =>
      simp only [AI.closeClients, hp, Bool.false_eq_true, if_false]
      rcases hq : AI.closeProviders cf
          { s with closed := s.closed ++ [kv.2.client.cid] } kv.2.providers with ⟨s₂, e₂⟩
      have hf := ai_closeProviders_fields cf kv.2.providers
          { s with closed := s.closed ++ [kv.2.client.cid] }
      rw [hq] at hf
      simp only at hf
      cases e₂ with
      | some e => simpa using hf
      | none =>
        have hg := ih s₂
        simp only at hg ⊢
        refine ⟨?_, ?_, ?_, ?_, ?_⟩
        · rw [hg.1, hf.1]
        · rw [hg.2.1, hf.2.1]
        · rw [hg.2.2.1, hf.2.2.1]
        · rw [hg.2.2.2.1, hf.2.2.2.1]
        · rw [hg.2.2.2.2, hf.2.2.2.2]

theorem ai_closeProviders_ok (cf : Nat → Bool) (l : List AI.ProviderClient) (s : AI.AIState)
    (h : ∀ i ∈ provIds l, cf i = false) :
    AI.closeProviders cf s l = ({ s with closed := s.closed ++ provIds l }, none) := by
  induction l generalizing s with
  | nil => simp [AI.closeProviders, provIds]
  | cons p rest ih =>
    have hp : cf p.pid = false := h p.pid (by simp [provIds])
    have hr : ∀ i ∈ provIds rest, cf i = false := by
      intro i hi
      exact h i (by simp [provIds] at hi ⊢; exact Or.inr hi)
    simp only [AI.closeProviders, hp, Bool.false_eq_true, if_false]
    rw [ih _ hr]
    simp [provIds, List.append_assoc]

theorem ai_closeClients_ok (cf : Nat → Bool) (l : List (String × AI.AIClientInfo)) (s : AI.AIState)
    (h : ∀ i ∈ entriesIds l, cf i = false) :
    AI.closeClients cf s l = ({ s with closed := s.closed ++ entriesIds l }, none) := by
  induction l generalizing s with
  | nil => simp [AI.closeClients, entriesIds]
  | cons kv rest ih =>
    have hmem : ∀ i, i ∈ entryIds kv.2 ∨ i ∈ entriesIds rest → i ∈ entriesIds (kv :: rest) := by
      intro i hi
      simp only [entriesIds, List.foldr_cons, List.mem_append]
      simpa [entriesIds] using hi
    have hc : cf kv.2.client.cid = false :=
      h _ (hmem _ (Or.inl (by simp [entryIds])))
    have hpl : ∀ i ∈ provIds kv.2.providers, cf i = false := by
      intro i hi
      exact h _ (hmem _ (Or.inl (by simp [entryIds]; exact Or.inr hi)))
    have hrest : ∀ i ∈ entriesIds rest, cf i = false := by
      intro i hi
      exact h _ (hmem _ (Or.inr hi))
    simp only [AI.closeClients, hc, Bool.false_eq_true, if_false]
    rw [ai_closeProviders_ok cf _ _ hpl]
    dsimp only
    rw [ih _ hrest]
    simp [entriesIds, entryIds, List.append_assoc]

theorem ai_initRedis_store (s : AI.AIState) : (AI.initRedis s).store = s.store := by
  unfold AI.initRedis
  by_cases hi : s.redisInit <;> by_cases hr : s.store.reachable <;> simp [hi, hr]

theorem ai_loadFromRedis_degraded (s : AI.AIState) (tid : String)
    (h : s.store.reachable = false ∨ (AI.redisKeyPfx ++ tid) ∈ s.store.corrupt) :
    AI.loadFromRedis s tid = (AI.initRedis s, none) := by
  have hget : ∃ m, Store.getRaw (AI.initRedis s).store (AI.redisKeyPfx ++ tid) =
      Except.error m := by
    unfold Store.getRaw
    rw [ai_initRedis_store s]
    cases h with
    | inl hr => exact ⟨"connection refused", by rw [if_pos hr]⟩
    | inr hmem =>
      by_cases hr₂ : s.store.reachable = false
      · exact ⟨"connection refused", by rw [if_pos hr₂]⟩
      · refine ⟨"malformed payload", ?_⟩
        rw [if_neg hr₂, if_pos (List.elem_iff.mpr hmem)]
  unfold AI.loadFromRedis
  dsimp only
  by_cases hcn : (AI.initRedis s).redisConn = false
  · rw [if_pos hcn]
  · rw [if_neg hcn]
    obtain ⟨m, hm⟩ := hget
    rw [hm]

theorem ai_saveToRedis_unreachable_store (s : AI.AIState) (cfg : AI.AITenantConfig)
    (hr : s.store.reachable = false) :
    (AI.saveToRedis s cfg).store = s.store := by
  by_cases hi : s.redisInit <;>
    by_cases hcn : s.redisConn <;>
      simp [AI.saveToRedis, AI.initRedis, Store.setRaw, hr, hi, hcn]

theorem gate_invariant (cap : Nat) (p : List Gate.GateEvent) :
    ∀ (h : Nat) (q : List Gate.GateEvent),
      Gate.gateValid cap h (p ++ q) → h ≤ cap → Gate.holdersAfter h p ≤ cap := by
  induction p with
  | nil =>
    intro h q hv hle
    simpa [Gate.holdersAfter] using hle
  | cons e p ih =>
    intro h q hv hle
    cases e with
    | acquire i =>
      have hv₁ : h < cap ∧ Gate.gateValid cap (h + 1) (p ++ q) := hv
      exact ih (h + 1) q hv₁.2 hv₁.1
    | call i ok =>
      exact ih h q hv hle
    | release i =>
      exact ih (h - 1) q hv (le_trans (Nat.sub_le h 1) hle)

/-! Claim theorems. -/

set_option maxRecDepth 10000 in
/-- C1: for a tenant id with both a persisted config and an environment-derived
config, initialize() leaves the PERSISTED config active, not the
environment-derived one: the environment pass only registers tenant ids not
already present in self.configs, so the claimed environment override never
happens.  Evaluated at the failing input: tenant acme with a persisted base
URL and a different environment base URL. -/
theorem c1_init_keeps_persisted_config :
    (AI.initAll c1Env (AI.initState c1Store)).2 = none ∧
    lookupA (AI.initAll c1Env (AI.initState c1Store)).1.configs "acme" = some c1Cfg ∧
    c1Cfg.api_base_url = "http://persisted.example" ∧
    (lookupA (AI.initAll c1Env (AI.initState c1Store)).1.configs "acme").map
      AI.AITenantConfig.api_base_url ≠ some "http://env.example" := by
  refine ⟨by decide, by decide, rfl, by decide⟩

/-- C2: once get_client has returned an entry for a tenant, the entry is in
the in-memory map, and an immediately repeated get_client returns the very
same entry with the manager state unchanged: no source-chain resolution and no
client construction happens (the construction log is part of the state, so its
count for the tenant stays as it was after the first call). -/
theorem c2_get_client_idempotent (env : Env) (s s₁ : AI.AIState) (tid : String)
    (info : AI.AIClientInfo) (h : AI.getClient env s tid = (s₁, Except.ok info)) :
    lookupA s₁.clients tid = some info ∧
    AI.getClient env s₁ tid = (s₁, Except.ok info) := by
  have hl : lookupA s₁.clients tid = some info := by
    unfold AI.getClient at h
    cases hc : lookupA s.clients tid with
    | some i =>
      rw [hc] at h
      simp only [Prod.mk.injEq, Except.ok.injEq] at h
      rw [← h.1, ← h.2]
      exact hc
    | none =>
      rw [hc] at h
      dsimp only at h
      unfold AI.resolveAndRegister at h
      dsimp only at h
      split at h
      · simp at h
      · simp at h
      · split at h
        · rename_i info₀ heq
          simp only [Prod.mk.injEq, Except.ok.injEq] at h
          rw [← h.1, ← h.2]
          exact heq
        · simp at h
  refine ⟨hl, ?_⟩
  unfold AI.getClient
  rw [hl]

/-- C2 witness. -/
theorem c2_witness :
    lookupA c2S1.clients "t1" = some c2Info ∧
    AI.getClient [] c2S1 "t1" = (c2S1, Except.ok c2Info) :=
  c2_get_client_idempotent [] (AI.initState c2Store) c2S1 "t1" c2Info (by decide)

/-- C3 counterexample: the AI manager never raises not-found.  With an empty
environment and no persisted entry, get_client on an unknown tenant silently
returns a client built from the default GPU-AI base URL. -/
theorem c3_counterexample_ai_returns_default_client :
    (AI.getClient [] (AI.initState c3Store) "nonexistent").2 = Except.ok c3Info ∧
    c3Info.client.apiBaseUrl = "http://192.168.0.10:8000" := by
  refine ⟨by decide, rfl⟩

/-- C4 counterexample: the AI manager environment source yields a config even
when no environment variable for the tenant exists at all, instead of yielding
none as the claim states. -/
theorem c4_counterexample_ai_env_source_always_yields :
    AI.loadTenantFromEnv [] "ghost" = Except.ok (some { tenant_id := "ghost" }) := by
  decide

/-- C3 amended: for the genImage and minio managers, get_client on a tenant id
with no cached entry, no persisted store entry and no matching environment
variables raises the not-found error naming the tenant id and instructing the
caller to configure or register it; the AI manager is the exception: its
environment source never yields nothing, so its get_client never raises
not-found and instead silently returns a default-configured client. -/
theorem c3_amended_not_found_signaling
    (env : Env) (sg : GenImage.GState) (sm : Minio.MinioState) (tid : String)
    (h₁ : lookupA sg.clients tid = none)
    (h₂ : (GenImage.loadFromRedisG sg tid).2 = none)
    (h₃ : envTruthy env ("GENIMAGE_TENANT_" ++ upperStr tid ++ "_RUNWARE_API_KEY") = none)
    (h₄ : lookupA sm.clients tid = none)
    (h₅ : envTruthy env ("MINIO_TENANT_" ++ upperStr tid ++ "_ENDPOINT") = none) :
    (GenImage.getClientG env sg tid).2 =
      Except.error ("Tenant \x27" ++ tid ++
        "\x27 not found. Configure it via environment variables or register it programmatically.") ∧
    (Minio.getClientM env sm tid).2 =
      Except.error ("Tenant \x27" ++ tid ++ "\x27 not found. Configure it via environment variables.") ∧
    (∀ e t, AI.loadTenantFromEnv e t ≠ Except.ok none) := by
  refine ⟨?_, ?_, fun e t => ai_env_loader_never_none e t⟩
  · have hload : GenImage.loadTenantFromEnvG env tid = Except.ok none := by
      unfold GenImage.loadTenantFromEnvG
      dsimp only
      rw [h₃]
      rfl
    unfold GenImage.getClientG
    rw [h₁]
    dsimp only
    unfold GenImage.resolveAndRegisterG
    dsimp only
    rw [h₂, hload]
  · have hload : Minio.loadTenantFromEnvM env tid = none := by
      unfold Minio.loadTenantFromEnvM
      dsimp only
      rw [h₅]
    unfold Minio.getClientM
    rw [h₄]
    dsimp only
    rw [hload]

/-- C3 witness. -/
theorem c3_witness :
    (GenImage.getClientG [] (GenImage.initStateG c3GStore) "t2").2 =
      Except.error ("Tenant \x27" ++ "t2" ++
        "\x27 not found. Configure it via environment variables or register it programmatically.") ∧
    (Minio.getClientM [] Minio.initStateM "t2").2 =
      Except.error ("Tenant \x27" ++ "t2" ++ "\x27 not found. Configure it via environment variables.") ∧
    (∀ e t, AI.loadTenantFromEnv e t ≠ Except.ok none) :=
  c3_amended_not_found_signaling [] (GenImage.initStateG c3GStore) Minio.initStateM "t2"
    (by decide) (by decide) (by decide) (by decide) (by decide)

/-- C4 amended: the required-field gating holds for the minio, genImage and
postgres environment sources (absent or empty required variable means the
source yields nothing); the AI manager environment source is the exception:
it always yields a config, falling back to the default base URL. -/
theorem c4_amended_required_field_gating (env : Env) (tid : String)
    (h₁ : envTruthy env ("MINIO_TENANT_" ++ upperStr tid ++ "_ENDPOINT") = none)
    (h₂ : envTruthy env ("GENIMAGE_TENANT_" ++ upperStr tid ++ "_RUNWARE_API_KEY") = none)
    (h₃ : envTruthy env ("POSTGRES_TENANT_" ++ upperStr tid ++ "_HOST") = none) :
    Minio.loadTenantFromEnvM env tid = none ∧
    GenImage.loadTenantFromEnvG env tid = Except.ok none ∧
    PG.loadTenantFromEnvP env tid = Except.ok none ∧
    (∀ e t, AI.loadTenantFromEnv e t ≠ Except.ok none) := by
  refine ⟨?_, ?_, ?_, fun e t => ai_env_loader_never_none e t⟩
  · unfold Minio.loadTenantFromEnvM
    dsimp only
    rw [h₁]
  · unfold GenImage.loadTenantFromEnvG
    dsimp only
    rw [h₂]
    rfl
  · unfold PG.loadTenantFromEnvP
    dsimp only
    rw [h₃]
    rfl

/-- C4 witness. -/
theorem c4_witness :
    Minio.loadTenantFromEnvM [] "t4" = none ∧
    GenImage.loadTenantFromEnvG [] "t4" = Except.ok none ∧
    PG.loadTenantFromEnvP [] "t4" = Except.ok none ∧
    (∀ e t, AI.loadTenantFromEnv e t ≠ Except.ok none) :=
  c4_amended_required_field_gating [] "t4" (by decide) (by decide) (by decide)

/-- C5 counterexample: in the Postgres manager a failed re-registration is not
state-preserving: the prior entry is still mapped, but its pool was already
closed before the new pool construction failed, so it is no longer usable. -/
theorem c5_counterexample_prior_pool_released_on_failed_reregistration :
    (PG.registerTenantP (fun _ => true) c5S c5Cfg).2 = some "pool open failed" ∧
    lookupA (PG.registerTenantP (fun _ => true) c5S c5Cfg).1.pools "t" = some 0 ∧
    (PG.registerTenantP (fun _ => true) c5S c5Cfg).1.closedPools = [0] := by
  refine ⟨by decide, by decide, by decide⟩

/-- C5 amended: a failed register_tenant leaves the in-memory maps (and, where
an external store exists, the store) unchanged; but in the Postgres manager a
re-registration closes the prior pool before constructing the new one, so on a
construction failure the prior entry is still mapped while its pool has
already been released (it is not left usable, contrary to the claim). -/
theorem c5_amended_register_failure_closes_prior_pool (openFails : String → Bool)
    (s s₁ : PG.PGState) (cfg : PG.PostgresTenantConfig) (e : String)
    (h : PG.registerTenantP openFails s cfg = (s₁, some e)) :
    s₁.pools = s.pools ∧ s₁.configs = s.configs ∧
    s₁.closedPools = s.closedPools ++
      (match lookupA s.pools cfg.tenant_id with
       | some pid => [pid]
       | none => []) := by
  unfold PG.registerTenantP at h
  cases hl : lookupA s.pools cfg.tenant_id with
  | some pid =>
    rw [hl] at h
    dsimp only at h
    split at h
    · simp only [Prod.mk.injEq, Option.some.injEq] at h
      rw [← h.1]
      exact ⟨rfl, rfl, rfl⟩
    · simp at h
  | none =>
    rw [hl] at h
    dsimp only at h
    split at h
    · simp only [Prod.mk.injEq, Option.some.injEq] at h
      rw [← h.1]
      exact ⟨rfl, rfl, by simp⟩
    · simp at h

/-- C5 witness. -/
theorem c5_witness :
    c5S1.pools = c5S.pools ∧ c5S1.configs = c5S.configs ∧
    c5S1.closedPools = c5S.closedPools ++
      (match lookupA c5S.pools c5Cfg.tenant_id with
       | some pid => [pid]
       | none => []) :=
  c5_amended_register_failure_closes_prior_pool (fun _ => true) c5S c5S1 c5Cfg
    "pool open failed" (by decide)

/-- C6 counterexample: close_all is not best-effort.  With two registered
tenants and the close of the first raising, the exception propagates
immediately: the second tenant is never attempted (no resource id released),
the maps are not cleared, and the Redis connection is not released. -/
theorem c6_counterexample_close_failure_aborts_rest :
    AI.closeAll (fun i => i == 0) c6S = (c6S, some "close failed") ∧
    c6S.clients ≠ [] ∧ c6S.redisConn = true ∧ c6S.closed = [] := by
  refine ⟨by decide, by decide, rfl, rfl⟩

/-- C6 amended: close_all performs the per-tenant releases sequentially with
no error isolation.  When every close succeeds it releases every client and
provider client, clears both maps and releases the Redis connection; but when
closing one resource raises, the exception propagates: the remaining releases
are not attempted, the maps are not cleared and the Redis connection is not
released. -/
theorem c6_amended_close_all_sequential (cf : Nat → Bool) (s : AI.AIState) :
    ((∀ i ∈ entriesIds s.clients, cf i = false) →
      AI.closeAll cf s =
        ({ s with
            clients := [],
            configs := [],
            closed := s.closed ++ entriesIds s.clients,
            redisConn := false,
            redisInit := if s.redisConn then false else s.redisInit }, none)) ∧
    (∀ s₁ e, AI.closeAll cf s = (s₁, some e) →
      s₁.clients = s.clients ∧ s₁.configs = s.configs ∧
      s₁.redisConn = s.redisConn ∧ s₁.redisInit = s.redisInit) := by
  constructor
  · intro hall
    unfold AI.closeAll
    rw [ai_closeClients_ok cf s.clients s hall]
    dsimp only
    cases hrc : s.redisConn <;> simp [hrc]
  · intro s₁ e h
    unfold AI.closeAll at h
    rcases hq : AI.closeClients cf s s.clients with ⟨s₀, e₀⟩
    have hf := ai_closeClients_fields cf s.clients s
    rw [hq] at hf h
    cases e₀ with
    | some e₁ =>
      dsimp only at h
      simp only [Prod.mk.injEq, Option.some.injEq] at h
      rw [← h.1]
      exact ⟨hf.1, hf.2.1, hf.2.2.1, hf.2.2.2.1⟩
    | none =>
      dsimp only at h
      cases hrc : s₀.redisConn <;> simp [hrc] at h

/-- C6 witness. -/
theorem c6_witness :
    AI.closeAll (fun _ => false) c6S =
      ({ c6S with
          clients := [],
          configs := [],
          closed := c6S.closed ++ entriesIds c6S.clients,
          redisConn := false,
          redisInit := if c6S.redisConn then false else c6S.redisInit }, none) ∧
    (c6S.clients = c6S.clients ∧ c6S.configs = c6S.configs ∧
      c6S.redisConn = c6S.redisConn ∧ c6S.redisInit = c6S.redisInit) :=
  ⟨(c6_amended_close_all_sequential (fun _ => false) c6S).1 (by decide),
   (c6_amended_close_all_sequential (fun i => i == 0) c6S).2 c6S "close failed" (by decide)⟩

/-- C7: after a completed close_all, the in-memory tenant map and config cache
are empty, every subsequent get_client takes the full resolution chain (its
cached branch can never fire), and when neither the store nor the environment
yields a config the not-found error is raised, exactly as for a never-seen
tenant. -/
theorem c7_close_all_then_unseen (cf : Nat → Bool) (s s₁ : GenImage.GState)
    (h : GenImage.closeAllG cf s = (s₁, none)) :
    s₁.clients = [] ∧ s₁.configs = [] ∧
    (∀ env tid, GenImage.getClientG env s₁ tid = GenImage.resolveAndRegisterG env s₁ tid) ∧
    (∀ env tid, (GenImage.loadFromRedisG s₁ tid).2 = none →
      envTruthy env ("GENIMAGE_TENANT_" ++ upperStr tid ++ "_RUNWARE_API_KEY") = none →
      (GenImage.getClientG env s₁ tid).2 =
        Except.error ("Tenant \x27" ++ tid ++
          "\x27 not found. Configure it via environment variables or register it programmatically.")) := by
  have hcc : s₁.clients = [] ∧ s₁.configs = [] := by
    unfold GenImage.closeAllG at h
    rcases hq : GenImage.closeClientsG cf s s.clients with ⟨s₀, e₀⟩
    rw [hq] at h
    cases e₀ with
    | some e => simp at h
    | none =>
      dsimp only at h
      cases hrc : s₀.redisConn <;> rw [hrc] at h <;>
        simp only [Bool.false_eq_true, if_false, if_true, Prod.mk.injEq] at h <;>
          rw [← h.1] <;> exact ⟨rfl, rfl⟩
  obtain ⟨hcl, hcf⟩ := hcc
  have hget : ∀ env tid, GenImage.getClientG env s₁ tid = GenImage.resolveAndRegisterG env s₁ tid := by
    intro env tid
    unfold GenImage.getClientG
    rw [hcl]
    rfl
  refine ⟨hcl, hcf, hget, ?_⟩
  intro env tid h₂ h₃
  rw [hget env tid]
  have hload : GenImage.loadTenantFromEnvG env tid = Except.ok none := by
    unfold GenImage.loadTenantFromEnvG
    dsimp only
    rw [h₃]
    rfl
  unfold GenImage.resolveAndRegisterG
  dsimp only
  rw [h₂, hload]

/-- C7 witness. -/
theorem c7_witness :
    c7S1.clients = [] ∧
    (GenImage.getClientG [] c7S1 "g1").2 =
      Except.error ("Tenant \x27" ++ "g1" ++
        "\x27 not found. Configure it via environment variables or register it programmatically.") :=
  ⟨(c7_close_all_then_unseen (fun _ => false) c7S c7S1 (by decide)).1,
   (c7_close_all_then_unseen (fun _ => false) c7S c7S1 (by decide)).2.2.2 [] "g1"
     (by decide) (by decide)⟩

/-- C8: with the store unreachable, or reachable but holding a malformed
payload under the tenant's key (json.loads or model validation raising), the
store source degrades to yielding nothing (the store wrappers are total: no
store exception escapes them), register_tenant still succeeds (and, when the
store is unreachable, writes nothing to it), and get_client still succeeds
with the environment-sourced config. -/
theorem c8_store_degraded_graceful (env : Env) (s : AI.AIState) (tid : String)
    (cfg : AI.AITenantConfig)
    (hdeg : s.store.reachable = false ∨ (AI.redisKeyPfx ++ tid) ∈ s.store.corrupt)
    (hc : lookupA s.clients tid = none)
    (he : AI.loadTenantFromEnv env tid = Except.ok (some cfg)) :
    (AI.loadFromRedis s tid).2 = none ∧
    (∀ c : AI.AITenantConfig,
      (lookupA (AI.registerTenant s c).clients c.tenant_id).isSome = true) ∧
    (s.store.reachable = false → ∀ c : AI.AITenantConfig,
      (AI.registerTenant s c).store.data = s.store.data) ∧
    (∃ s₂ info, AI.getClient env s tid = (s₂, Except.ok info) ∧ info.config = cfg) := by
  have hlr := ai_loadFromRedis_degraded s tid hdeg
  refine ⟨by rw [hlr], ?_, ?_, ?_⟩
  · intro c
    obtain ⟨info, hli, _, _, _⟩ := ai_register_entry s c
    rw [hli]
    rfl
  · intro hr c
    unfold AI.registerTenant
    dsimp only
    exact congrArg Store.data (ai_saveToRedis_unreachable_store _ c hr)
  · have htid : cfg.tenant_id = tid := ai_env_loader_tenant_id env tid cfg he
    obtain ⟨info, hli, hcfg, _, _⟩ := ai_register_entry (AI.initRedis s) cfg
    rw [htid] at hli
    refine ⟨AI.registerTenant (AI.initRedis s) cfg, info, ?_, hcfg⟩
    unfold AI.getClient
    rw [hc]
    dsimp only
    unfold AI.resolveAndRegister
    dsimp only
    rw [hlr]
    dsimp only
    rw [he]
    dsimp only
    rw [hli]

/-- C8 witness: both degradation modes at concrete inputs: an unreachable
store, and a reachable store whose payload for the tenant's key is
malformed. -/
theorem c8_witness :
    ((AI.loadFromRedis c8S "t8").2 = none ∧
     (∀ c : AI.AITenantConfig, (AI.registerTenant c8S c).store.data = c8S.store.data) ∧
     (∃ s₂ info, AI.getClient c8Env c8S "t8" = (s₂, Except.ok info) ∧ info.config = c8Cfg)) ∧
    ((AI.loadFromRedis c8CorruptS "t8").2 = none ∧
     (∀ c : AI.AITenantConfig,
       (lookupA (AI.registerTenant c8CorruptS c).clients c.tenant_id).isSome = true) ∧
     (∃ s₂ info, AI.getClient c8Env c8CorruptS "t8" = (s₂, Except.ok info) ∧
       info.config = c8Cfg)) :=
  ⟨⟨(c8_store_degraded_graceful c8Env c8S "t8" c8Cfg (Or.inl rfl) rfl (by decide)).1,
    (c8_store_degraded_graceful c8Env c8S "t8" c8Cfg (Or.inl rfl) rfl (by decide)).2.2.1 rfl,
    (c8_store_degraded_graceful c8Env c8S "t8" c8Cfg (Or.inl rfl) rfl (by decide)).2.2.2⟩,
   ⟨(c8_store_degraded_graceful c8Env c8CorruptS "t8" c8Cfg (Or.inr (by decide)) rfl
       (by decide)).1,
    (c8_store_degraded_graceful c8Env c8CorruptS "t8" c8Cfg (Or.inr (by decide)) rfl
       (by decide)).2.1,
    (c8_store_degraded_graceful c8Env c8CorruptS "t8" c8Cfg (Or.inr (by decide)) rfl
       (by decide)).2.2.2⟩⟩

/-- C9 counterexample: not every registry guards its tenants with a gate.  The
minio manager registers, for a tenant, exactly the bare Minio client record:
its config has no max_concurrent_requests field and its entry carries no
semaphore (register_tenant passes none, and the tool handlers invoke the
client directly), so for a minio-registered tenant there is no concurrency
gate that operations could acquire, contrary to the claim quantifying over
every registered tenant. -/
theorem c9_counterexample_minio_entry_has_no_gate :
    Minio.registerTenantM Minio.initStateM c9MCfg =
      { clients := [("m1", c9MClient)], configs := [("m1", c9MCfg)],
        nextId := 1, constructions := ["m1"] } := by
  decide

/-- C9 amended, for the adapters that do have a gate (ai_mcp_server shown;
genImage and nano-banana are identical in structure): (a) registration stores
an entry whose concurrency gate capacity (both the dict slot and the wrapper
semaphore) equals config.max_concurrent_requests; (b) the config default for
that field is 10; (c) every client operation trace opens with the gate
acquire, performs the outbound call next, and ends with the release, whether
the call succeeded or failed (the async-with release is unconditional);
(d) under counting-semaphore admission, at no prefix of a valid event sequence
do more than cap operations hold the gate. -/
theorem c9_concurrency_gate :
    (∀ (s : AI.AIState) (cfg : AI.AITenantConfig) (info : AI.AIClientInfo),
      lookupA (AI.registerTenant s cfg).clients cfg.tenant_id = some info →
      info.semCapacity = cfg.max_concurrent_requests ∧
      info.client.semCapacity = cfg.max_concurrent_requests) ∧
    (∀ tid, ({ tenant_id := tid } : AI.AITenantConfig).max_concurrent_requests = 10) ∧
    (∀ i ok, (Gate.opTrace i ok).head? = some (Gate.GateEvent.acquire i) ∧
      (Gate.opTrace i ok).getLast? = some (Gate.GateEvent.release i) ∧
      (Gate.opTrace i ok)[1]? = some (Gate.GateEvent.call i ok)) ∧
    (∀ cap h tr, Gate.gateValid cap h tr → h ≤ cap →
      ∀ p q, tr = p ++ q → Gate.holdersAfter h p ≤ cap) := by
  refine ⟨?_, fun tid => rfl, fun i ok => ⟨rfl, rfl, rfl⟩, ?_⟩
  · intro s cfg info hl
    obtain ⟨info₀, hl₀, _, h₂, h₃⟩ := ai_register_entry s cfg
    rw [hl₀] at hl
    cases hl
    exact ⟨h₂, h₃⟩
  · intro cap h tr hv hle p q heq
    rw [heq] at hv
    exact gate_invariant cap p h q hv hle

/-- C9 witness. -/
theorem c9_witness :
    (c9Info.semCapacity = c9Cfg.max_concurrent_requests ∧
      c9Info.client.semCapacity = c9Cfg.max_concurrent_requests) ∧
    Gate.holdersAfter 0 [Gate.GateEvent.acquire 0] ≤ 2 :=
  ⟨c9_concurrency_gate.1 c9S c9Cfg c9Info (by decide),
   c9_concurrency_gate.2.2.2 2 0
     [Gate.GateEvent.acquire 0, Gate.GateEvent.call 0 false, Gate.GateEvent.release 0]
     ⟨by decide, trivial⟩ (by decide)
     [Gate.GateEvent.acquire 0] [Gate.GateEvent.call 0 false, Gate.GateEvent.release 0] rfl⟩

/-- C10 amended: store degradation is sticky: in the degraded state
(initialized flag set, no Redis client) every store read and write is a no-op
regardless of whether the external store has become reachable again; and it
stays sticky even past close_all, because close_all resets the initialization
flag only when a live Redis client exists. -/
theorem c10_amended_sticky_degradation (s : AI.AIState)
    (hinit : s.redisInit = true) (hconn : s.redisConn = false) :
    (∀ tid, AI.loadFromRedis s tid = (s, none)) ∧
    (∀ cfg, AI.saveToRedis s cfg = s) ∧
    AI.loadAllFromRedis s = (s, []) ∧
    (∀ cf, ((AI.closeAll cf s).1).redisInit = true) := by
  have hid : AI.initRedis s = s := by
    unfold AI.initRedis
    rw [if_pos hinit]
  refine ⟨?_, ?_, ?_, ?_⟩
  · intro tid
    unfold AI.loadFromRedis
    rw [hid, if_pos hconn]
  · intro cfg
    unfold AI.saveToRedis
    rw [hid, if_pos hconn]
  · unfold AI.loadAllFromRedis
    rw [hid, if_pos hconn]
  · intro cf
    unfold AI.closeAll
    rcases hq : AI.closeClients cf s s.clients with ⟨s₀, e₀⟩
    have hf := ai_closeClients_fields cf s.clients s
    rw [hq] at hf
    have hri : s₀.redisInit = true := hf.2.2.2.1.trans hinit
    have hrc : s₀.redisConn = false := hf.2.2.1.trans hconn
    cases e₀ with
    | some e =>
      dsimp only
      exact hri
    | none =>
      dsimp only
      rw [hrc]
      simp only [Bool.false_eq_true, if_false]
      exact hri

/-- C10 witness. -/
theorem c10_witness :
    AI.loadFromRedis c10S "x" = (c10S, none) ∧
    AI.saveToRedis c10S c10Cfg = c10S ∧
    ((AI.closeAll (fun _ => false) c10S).1).redisInit = true :=
  ⟨(c10_amended_sticky_degradation c10S rfl rfl).1 "x",
   (c10_amended_sticky_degradation c10S rfl rfl).2.1 c10Cfg,
   (c10_amended_sticky_degradation c10S rfl rfl).2.2.2 (fun _ => false)⟩

/-- C10 counterexample: in the degraded state (initialized flag set, no Redis
client) close_all completes but does NOT reset the initialization flag (the
reset is guarded by a live Redis client), so the store stays untried even
after close_all, although the external store is reachable again. -/
theorem c10_counterexample_close_all_keeps_flag :
    AI.closeAll (fun _ => false) c10S = (c10S, none) ∧
    c10S.redisInit = true ∧
    c10S.store.reachable = true ∧
    AI.loadFromRedis c10S "t" = (c10S, none) := by
  refine ⟨by decide, rfl, rfl, by decide⟩

end MCPServers
